import Mathlib

/-!
Verification of the city-wise report generator (`src/app.py`): a small web
application that ingests an `.xlsx` spreadsheet, groups its rows by the
`CONTACTCITY` column (pandas `sort_values` followed by `groupby`), renders one
PDF per city group with a per-upload filename prefix, serves the results as
single downloads or as a ZIP archive, and performs deferred cleanup of the two
transient folders (`Uploads` and `city_pdfs`).

The embedding models the pure content of each handler:

* A spreadsheet row is a `Row`: its `CONTACTCITY` cell is an `Option String`
  (`none` models a missing/blank cell, which pandas parses as NaN; `some s`
  models a string cell), with all remaining columns abstracted into a
  payload `rest`.
* `upload_group` models lines 69-77 of `app.py`:
  `df.sort_values(by='CONTACTCITY')` followed by `df.groupby('CONTACTCITY')`
  and the construction of the `city_groups` dict.  pandas `groupby` runs with
  its default `dropna=True`, so rows whose key is NaN belong to no group; the
  group keys are the distinct non-null key values in ascending order, and a
  group's rows are the rows of the (sorted) frame carrying that key, in frame
  order.  `sort_values` runs with its default `kind='quicksort'`, which fixes
  no order between rows with equal keys; the embedding realises the sort with
  an insertion sort, and every theorem below is insensitive to the order the
  sort chooses between rows of equal key.
* `makeFilename` models the filename derivation of lines 89 and 148:
  the string interpolation with the city name and the `.pdf` extension,
  with the conditional on a non-empty name part before the city.
* `pyStrip` models Python `str.strip()` applied to the form field at line 56
  (ASCII whitespace characters; the Unicode spaces Python also strips play no
  role in the theorems below).
* `upload` models the `/upload` handler (lines 51-101) as a transition on an
  `AppState`; rendering via `pdfkit.from_string` is abstracted into a
  `renderOk` oracle saying whether conversion of a given city's document
  succeeds (on failure the exception propagates, so later groups are not
  rendered and the session assignments of lines 94-95 never execute).
* `download_zip` models lines 111-124 (guard plus archive membership; the
  archive member names are the `arcname=filename` bare names).
* `cleanup_folders` models lines 23-43 on folder state: an absent folder is
  skipped; an existing folder has its entries deleted and is then removed
  itself by `shutil.rmtree`.  Deletion failures are only logged by the code
  and are modelled as absent.
* `download_city_pdf` models lines 143-153: the query-string prefix is used
  verbatim (not stripped) and the handler sends the file iff the derived
  filename exists in the PDF folder.
-/

/-- One spreadsheet row: the `CONTACTCITY` cell (`none` = missing/NaN) plus an
abstract payload standing for the remaining columns. -/
structure Row where
  city : Option String
  rest : Nat
deriving DecidableEq

/-- Strict lexicographic order on character lists by code point, the order
Python uses to compare strings (and hence the order pandas sorts string
columns by). -/
def strLtList : List Char → List Char → Bool
  | [], [] => false
  | [], _ :: _ => true
  | _ :: _, [] => false
  | a :: as, b :: bs =>
    if a.toNat < b.toNat then true
    else if b.toNat < a.toNat then false
    else strLtList as bs

/-- Strict lexicographic order on strings by code point. -/
def strLtB (a b : String) : Bool := strLtList a.data b.data

/-- Ascending comparison on `CONTACTCITY` cells as performed by
`sort_values(by='CONTACTCITY')`: string order on present values, NaN sorted
last (`na_position='last'`). -/
def cityLe (a b : Option String) : Bool :=
  match a, b with
  | none, none => true
  | none, some _ => false
  | some _, none => true
  | some x, some y => strLtB x y || x == y

/-- Row comparison used by the sort step. -/
def rowLe (a b : Row) : Prop := cityLe a.city b.city = true

instance : DecidableRel rowLe :=
  fun a b => inferInstanceAs (Decidable (cityLe a.city b.city = true))

/-- Ascending order on group keys (`groupby` emits keys sorted). -/
def strLe (a b : String) : Prop := (strLtB a b || a == b) = true

instance : DecidableRel strLe :=
  fun a b => inferInstanceAs (Decidable ((strLtB a b || a == b) = true))

/-- `df.sort_values(by='CONTACTCITY')` (line 70). -/
def sortByCity (rows : List Row) : List Row := List.insertionSort rowLe rows

/-- The group keys produced by `df.groupby('CONTACTCITY')` (line 71): the
distinct non-null key values, in ascending order.  Rows with a NaN key are
dropped (`dropna=True`, the pandas default). -/
def groupKeys (rows : List Row) : List String :=
  (List.insertionSort strLe ((sortByCity rows).filterMap Row.city)).dedup

/-- The `city_groups` association built at lines 70-75: for each group key,
the rows of the sorted frame carrying that key, in frame order. -/
def upload_group (rows : List Row) : List (String × List Row) :=
  (groupKeys rows).map
    (fun c => (c, (sortByCity rows).filter (fun r => r.city == some c)))

/-- Filename derivation of lines 89 and 148: the city name suffixed with
`.pdf`, preceded by `pfx` and one space when `pfx` is non-empty. -/
def makeFilename (pfx city : String) : String :=
  if pfx ≠ "" then pfx ++ " " ++ city ++ ".pdf" else city ++ ".pdf"

/-- ASCII whitespace, as stripped by Python `str.strip()`. -/
def isPySpace (c : Char) : Bool :=
  c == ' ' || c == '\t' || c == '\n' || c == '\r' || c == '\x0b' || c == '\x0c'

/-- Python `str.strip()` (line 56): drop whitespace from both ends. -/
def pyStrip (s : String) : String :=
  String.mk (((s.data.dropWhile isPySpace).reverse.dropWhile isPySpace).reverse)

/-- Python `str.endswith` on filenames (lines 58 and 122). -/
def strEndsWith (s suf : String) : Bool :=
  List.isPrefixOf suf.data.reverse s.data.reverse

/-- Outcome of the `/download_zip` handler: either the flash-and-redirect
notice, or an in-memory archive holding the given member names. -/
inductive ZipResult where
  | notice : ZipResult
  | archive : List String → ZipResult
deriving DecidableEq

/-- The `/download_zip` handler (lines 111-124) on the PDF-folder state:
`none` models an absent folder, `some listing` its directory listing.  The
guard of line 115 redirects when the folder is absent or has no entries at
all; otherwise the archive holds every listed name ending in `.pdf`, each
stored under its bare filename (`arcname=filename`). -/
def download_zip (pdfFolder : Option (List String)) : ZipResult :=
  match pdfFolder with
  | none => ZipResult.notice
  | some listing =>
    if listing = [] then ZipResult.notice
    else ZipResult.archive (listing.filter (fun f => strEndsWith f ".pdf"))

/-- The state the handlers touch: the two session keys and the listings of
the two transient folders (`none` = folder absent). -/
structure AppState where
  session_city_groups : Option (List (String × List Row))
  session_headers : Option (List String)
  uploadFolder : Option (List String)
  pdfFolder : Option (List String)
deriving DecidableEq

/-- Writing a file into a folder listing (overwriting keeps one entry). -/
def addFile (files : List String) (f : String) : List String :=
  if f ∈ files then files else files ++ [f]

/-- Outcome of the `/upload` handler: redirect to `/display` on success,
flash-and-redirect to `/` on an invalid file, or a propagated rendering
exception. -/
inductive UploadResult where
  | redirectDisplay : UploadResult
  | redirectIndex : UploadResult
  | renderError : UploadResult
deriving DecidableEq

/-- The rendering loop of lines 86-92: groups are processed in order; each
successful conversion writes `makeFilename pfx city` into the PDF folder; the
first failing conversion raises, leaving the files written so far and
returning `false`. -/
def renderAll (renderOk : String → Bool) (pfx : String) :
    List String → List (String × List Row) → List String × Bool
  | files, [] => (files, true)
  | files, g :: gs =>
    if renderOk g.1 then renderAll renderOk pfx (addFile files (makeFilename pfx g.1)) gs
    else (files, false)

/-- The `/upload` handler (lines 51-101) as a state transition.  `file` is the
uploaded file's filename (`none`: no file part, matching the falsy check of
line 58), `rawPfx` the raw form prefix field, `dataset` the parsed rows,
`headers` the parsed column list, and `savedName` the unique name under which
the spreadsheet is saved (line 64, a timestamp plus the original name).  On a
valid `.xlsx` upload both folders are created, the spreadsheet is saved, all
groups are rendered, and only then is the session updated (lines 94-95); a
rendering failure propagates before any session assignment runs. -/
def upload (st : AppState) (file : Option String) (rawPfx : String)
    (dataset : List Row) (headers : List String) (renderOk : String → Bool)
    (savedName : String) : AppState × UploadResult :=
  match file with
  | none => (st, UploadResult.redirectIndex)
  | some fname =>
    if strEndsWith fname ".xlsx" then
      if (renderAll renderOk (pyStrip rawPfx) (st.pdfFolder.getD []) (upload_group dataset)).2 then
        ({ session_city_groups := some (upload_group dataset),
           session_headers := some headers,
           uploadFolder := some (addFile (st.uploadFolder.getD []) savedName),
           pdfFolder := some (renderAll renderOk (pyStrip rawPfx) (st.pdfFolder.getD [])
             (upload_group dataset)).1 },
         UploadResult.redirectDisplay)
      else
        ({ st with
           uploadFolder := some (addFile (st.uploadFolder.getD []) savedName),
           pdfFolder := some (renderAll renderOk (pyStrip rawPfx) (st.pdfFolder.getD [])
             (upload_group dataset)).1 },
         UploadResult.renderError)
    else (st, UploadResult.redirectIndex)

/-- Effect of `cleanup_folders` (lines 23-43) on one folder: an absent folder
is skipped by the `os.path.exists` guard; an existing folder has every entry
deleted and is then removed itself by `shutil.rmtree(folder)` (line 40). -/
def cleanupFolder : Option (List String) → Option (List String)
  | none => none
  | some _ => none

/-- `cleanup_folders` on the whole state: both transient folders are
processed; the session is not touched. -/
def cleanup_folders (st : AppState) : AppState :=
  { st with
    uploadFolder := cleanupFolder st.uploadFolder,
    pdfFolder := cleanupFolder st.pdfFolder }

/-- Outcome of the `/download/city` handler. -/
inductive CityDownloadResult where
  | sendFile : String → CityDownloadResult
  | notFoundRedirect : CityDownloadResult
deriving DecidableEq

/-- The `/download/city` handler (lines 143-153): the query-string prefix is
used verbatim (no strip), and the file is sent iff the derived filename is
present in the PDF folder. -/
def download_city_pdf (pdfFiles : List String) (city rawPfx : String) :
    CityDownloadResult :=
  if makeFilename rawPfx city ∈ pdfFiles then
    CityDownloadResult.sendFile (makeFilename rawPfx city)
  else CityDownloadResult.notFoundRedirect

example : upload_group [Row.mk (some "B") 0, Row.mk (some "A") 1, Row.mk none 2] =
    [("A", [Row.mk (some "A") 1]), ("B", [Row.mk (some "B") 0])] := by decide

example : pyStrip " Q1 " = "Q1" := by decide

example : strEndsWith "notes.txt" ".pdf" = false := by decide

example : strEndsWith "A.pdf" ".pdf" = true := by decide

/-- Counting rows by a sub-predicate `q` of `p`: the rows satisfying `q` plus
the rows satisfying `p` but not `q` are exactly the rows satisfying `p`. -/
theorem length_filter_split {α : Type} (p q : α → Bool) (h : ∀ a, q a = true → p a = true) :
    ∀ l : List α,
      (l.filter q).length + (l.filter (fun a => p a && !q a)).length
        = (l.filter p).length
  | [] => rfl
  | a :: t => by
    have ih := length_filter_split p q h t
    cases hq : q a with
    | true =>
      have hp := h a hq
      simp [List.filter_cons, hq, hp]
      omega
    | false =>
      cases hp : p a with
      | true =>
        simp [List.filter_cons, hq, hp]
        omega
      | false =>
        simpa [List.filter_cons, hq, hp] using ih

/-- If the keys `ks` are distinct and pick up every non-null city of `rs`,
the per-key row counts sum to the number of rows with a non-null city. -/
theorem sum_group_lengths :
    ∀ (ks : List String) (rs : List Row), ks.Nodup →
      (∀ r ∈ rs, ∀ c, r.city = some c → c ∈ ks) →
      (ks.map (fun c => (rs.filter (fun r => r.city == some c)).length)).sum
        = (rs.filter (fun r => !(r.city == none))).length
  | [], rs, _, hcov => by
    have hnil : rs.filter (fun r => !(r.city == none)) = [] := by
      refine List.filter_eq_nil_iff.mpr (fun r hr => ?_)
      cases hc : r.city with
      | none => simp [hc]
      | some c => exact absurd (hcov r hr c hc) (List.not_mem_nil c)
    simp [hnil]
  | c :: ks, rs, hnd, hcov => by
    have hc_not : c ∉ ks := (List.nodup_cons.mp hnd).1
    have hnd2 : ks.Nodup := (List.nodup_cons.mp hnd).2
    have hcov2 : ∀ r ∈ rs.filter (fun r => !(r.city == some c)), ∀ d, r.city = some d → d ∈ ks := by
      intro r hr d hd
      have hr2 := List.mem_filter.mp hr
      rcases List.mem_cons.mp (hcov r hr2.1 d hd) with h1 | h1
      · exfalso
        subst h1
        simp [hd] at hr2
      · exact h1
    have ih := sum_group_lengths ks (rs.filter (fun r => !(r.city == some c))) hnd2 hcov2
    have hterm : ∀ d ∈ ks,
        ((rs.filter (fun r => !(r.city == some c))).filter
          (fun r => r.city == some d)).length
          = (rs.filter (fun r => r.city == some d)).length := by
      intro d hd
      have hdc : d ≠ c := fun h => hc_not (h ▸ hd)
      rw [List.filter_filter]
      refine congrArg List.length (List.filter_congr (fun r _ => ?_))
      cases hcity : r.city with
      | none => simp
      | some e =>
        by_cases he : e = d
        · subst he
          have : (some e == some c) = false := by
            simp only [beq_eq_false_iff_ne, ne_eq, Option.some.injEq]
            exact hdc
          simp [this]
        · simp [he]
    have hmap : ks.map (fun d =>
          ((rs.filter (fun r => !(r.city == some c))).filter
            (fun r => r.city == some d)).length)
        = ks.map (fun d => (rs.filter (fun r => r.city == some d)).length) :=
      List.map_congr_left hterm
    rw [hmap] at ih
    rw [List.filter_filter] at ih
    have hsplit := length_filter_split (fun r => !(r.city == none))
      (fun r : Row => r.city == some c)
      (fun r hr => by
        have hc2 : r.city = some c := by simpa using hr
        simp [hc2]) rs
    simp only [List.map_cons, List.sum_cons]
    rw [ih]
    exact hsplit

/-- Claim C1, counterexample: a dataset holding one row whose city cell is
missing (pandas NaN).  The grouping of the upload step produces groups whose
row counts sum to `0`, not to the dataset's row count `1`: the row is lost. -/
theorem c1_counterexample :
    ¬ (((upload_group [Row.mk none 0]).map (fun g => g.2.length)).sum
        = ([Row.mk none 0] : List Row).length) := by decide

/-- Claim C1, amended: for every dataset, the city groups produced by the
upload step have row counts summing to the number of rows whose city value is
present (non-NaN); rows whose city value is missing are dropped by
`groupby(dropna=True)` and belong to no group. -/
theorem c1_amended_group_sizes (rows : List Row) :
    ((upload_group rows).map (fun g => g.2.length)).sum
      = (rows.filter (fun r => !(r.city == none))).length := by
  have hnd : (groupKeys rows).Nodup := List.nodup_dedup _
  have hcov : ∀ r ∈ sortByCity rows, ∀ c, r.city = some c → c ∈ groupKeys rows := by
    intro r hr c hc
    have h1 : c ∈ (sortByCity rows).filterMap Row.city := List.mem_filterMap.mpr ⟨r, hr, hc⟩
    exact List.mem_dedup.mpr ((List.perm_insertionSort strLe _).mem_iff.mpr h1)
  have hsum := sum_group_lengths (groupKeys rows) (sortByCity rows) hnd hcov
  have hlen : ((sortByCity rows).filter (fun r => !(r.city == none))).length
      = (rows.filter (fun r => !(r.city == none))).length :=
    ((List.perm_insertionSort rowLe rows).filter _).length_eq
  calc ((upload_group rows).map (fun g => g.2.length)).sum
      = ((groupKeys rows).map (fun c =>
          ((sortByCity rows).filter (fun r => r.city == some c)).length)).sum := by
        simp only [upload_group, List.map_map]
        rfl
    _ = ((sortByCity rows).filter (fun r => !(r.city == none))).length := hsum
    _ = (rows.filter (fun r => !(r.city == none))).length := hlen

/-- Claim C3, counterexample: a dataset with one blank-string city row and one
missing-city row.  The missing-city row is a member of the dataset but of no
produced group: it is dropped, not grouped under the empty string. -/
theorem c3_counterexample :
    Row.mk none 2 ∈ [Row.mk (some "") 1, Row.mk none 2] ∧
    ∀ g ∈ upload_group [Row.mk (some "") 1, Row.mk none 2], Row.mk none 2 ∉ g.2 := by
  decide

/-- Claim C3, amended: a row whose city cell holds the literal empty string is
grouped under the key `""` like any other value, but a row whose city cell is
missing (pandas NaN) is excluded from every group by `groupby(dropna=True)`. -/
theorem c3_amended_blank_vs_missing (rows : List Row) (r : Row) (hr : r ∈ rows) :
    (r.city = some "" → ∃ g ∈ upload_group rows, g.1 = "" ∧ r ∈ g.2) ∧
    (r.city = none → ∀ g ∈ upload_group rows, r ∉ g.2) := by
  constructor
  · intro hc
    refine ⟨("", (sortByCity rows).filter (fun x => x.city == some "")), ?_, rfl, ?_⟩
    · have hr2 : r ∈ sortByCity rows := (List.perm_insertionSort rowLe rows).mem_iff.mpr hr
      have h1 : "" ∈ (sortByCity rows).filterMap Row.city := List.mem_filterMap.mpr ⟨r, hr2, hc⟩
      have h2 : "" ∈ groupKeys rows :=
        List.mem_dedup.mpr ((List.perm_insertionSort strLe _).mem_iff.mpr h1)
      exact List.mem_map_of_mem _ h2
    · refine List.mem_filter.mpr ⟨(List.perm_insertionSort rowLe rows).mem_iff.mpr hr, ?_⟩
      simp [hc]
  · intro hc g hg hrg
    obtain ⟨c, hcks, rfl⟩ := List.mem_map.mp hg
    have h2 := (List.mem_filter.mp hrg).2
    rw [hc] at h2
    simp at h2

/-- Witness for the amended C3 at a concrete input. -/
theorem c3_amended_blank_vs_missing_witness :
    (Row.mk (some "") 1 ∈ [Row.mk (some "") 1]) ∧
    ((Row.mk (some "") 1).city = some "" →
      ∃ g ∈ upload_group [Row.mk (some "") 1], g.1 = "" ∧ Row.mk (some "") 1 ∈ g.2) ∧
    ((Row.mk (some "") 1).city = none →
      ∀ g ∈ upload_group [Row.mk (some "") 1], Row.mk (some "") 1 ∉ g.2) :=
  have h := c3_amended_blank_vs_missing [Row.mk (some "") 1] (Row.mk (some "") 1) (by decide)
  ⟨by decide, h.1, h.2⟩

/-- Claim C4: the generated document's filename is the prefix, one space and
the city with extension `.pdf` when the (stripped) prefix is non-empty, and
just the city with extension `.pdf` when it is empty; in particular `Q1` with
`Denver` gives `Q1 Denver.pdf` and the empty prefix gives `Denver.pdf`. -/
theorem c4_filename_derivation (pfx city : String) :
    (pfx ≠ "" → makeFilename pfx city = pfx ++ " " ++ city ++ ".pdf") ∧
    (pfx = "" → makeFilename pfx city = city ++ ".pdf") ∧
    makeFilename "Q1" "Denver" = "Q1 Denver.pdf" ∧
    makeFilename "" "Denver" = "Denver.pdf" := by
  refine ⟨?_, ?_, by decide, by decide⟩
  · intro h
    simp [makeFilename, h]
  · intro h
    simp [makeFilename, h]

/-- Witness for C4 at the spec's concrete example. -/
theorem c4_filename_derivation_witness :
    ("Q1" : String) ≠ "" ∧ makeFilename "Q1" "Denver" = "Q1" ++ " " ++ "Denver" ++ ".pdf" :=
  ⟨by decide, (c4_filename_derivation "Q1" "Denver").1 (by decide)⟩

/-- Claim C5: when the PDF folder has a non-empty listing, the archive built
by `download_zip` holds exactly the listed names ending in `.pdf`, each under
its bare filename; the listing of the spec's example yields exactly the two
document members. -/
theorem c5_archive_members (listing : List String) (h : listing ≠ []) :
    download_zip (some listing)
      = ZipResult.archive (listing.filter (fun f => strEndsWith f ".pdf")) ∧
    (∀ f, f ∈ listing.filter (fun f => strEndsWith f ".pdf")
        ↔ f ∈ listing ∧ strEndsWith f ".pdf" = true) ∧
    download_zip (some ["A.pdf", "B.pdf", "notes.txt"])
      = ZipResult.archive ["A.pdf", "B.pdf"] := by
  refine ⟨?_, ?_, by decide⟩
  · simp [download_zip, h]
  · intro f
    exact List.mem_filter

/-- Witness for C5 at the spec's concrete example. -/
theorem c5_archive_members_witness :
    (["A.pdf", "B.pdf", "notes.txt"] : List String) ≠ [] ∧
    download_zip (some ["A.pdf", "B.pdf", "notes.txt"])
      = ZipResult.archive ["A.pdf", "B.pdf"] :=
  ⟨by decide, (c5_archive_members ["A.pdf", "B.pdf", "notes.txt"] (by decide)).2.2⟩

/-- Claim C6, counterexample: a PDF folder whose listing is `["notes.txt"]`
exists and holds zero `.pdf` files, yet `download_zip` does not signal the
nothing-to-archive notice: it produces an empty archive (the guard of line
115 only checks that the directory listing is non-empty). -/
theorem c6_counterexample :
    download_zip (some ["notes.txt"]) ≠ ZipResult.notice ∧
    download_zip (some ["notes.txt"]) = ZipResult.archive [] := by decide

/-- Claim C6, amended: `download_zip` signals the nothing-to-archive notice
exactly when the PDF folder is absent or its listing holds no entry of any
kind; when the listing is non-empty but holds no `.pdf` entry, an empty
archive is produced instead. -/
theorem c6_amended_notice_iff (st : Option (List String)) :
    (download_zip st = ZipResult.notice ↔ st = none ∨ st = some []) ∧
    (∀ fs, st = some fs → fs ≠ [] → (∀ f ∈ fs, strEndsWith f ".pdf" = false) →
      download_zip st = ZipResult.archive []) := by
  constructor
  · constructor
    · intro h
      cases st with
      | none => exact Or.inl rfl
      | some l =>
        by_cases hl : l = []
        · exact Or.inr (by rw [hl])
        · exfalso
          simp [download_zip, hl] at h
    · intro h
      rcases h with h1 | h1 <;> subst h1 <;> simp [download_zip]
  · intro fs hst hne hall
    subst hst
    have hfilter : fs.filter (fun f => strEndsWith f ".pdf") = [] :=
      List.filter_eq_nil_iff.mpr (fun f hf => by simp [hall f hf])
    simp [download_zip, hne, hfilter]

/-- Witness for the amended C6 at a concrete input. -/
theorem c6_amended_notice_iff_witness :
    (["x.txt"] : List String) ≠ [] ∧
    download_zip (some ["x.txt"]) = ZipResult.archive [] :=
  ⟨by decide, (c6_amended_notice_iff (some ["x.txt"])).2 ["x.txt"] rfl (by decide) (by decide)⟩

/-- If some group's document conversion fails, the rendering loop raises:
its success flag is `false` no matter which files were already written. -/
theorem renderAll_snd_false (renderOk : String → Bool) (pfx : String) :
    ∀ (gs : List (String × List Row)) (files : List String),
      (∃ g ∈ gs, renderOk g.1 = false) →
      (renderAll renderOk pfx files gs).2 = false
  | [], _, h => by
    obtain ⟨g, hg, _⟩ := h
    exact absurd hg (List.not_mem_nil g)
  | g0 :: gs, files, h => by
    obtain ⟨g, hg, hfail⟩ := h
    cases hok : renderOk g0.1 with
    | false => simp [renderAll, hok]
    | true =>
      have hrest : ∃ g ∈ gs, renderOk g.1 = false := by
        rcases List.mem_cons.mp hg with h1 | h1
        · rw [h1] at hfail
          rw [hok] at hfail
          exact Bool.noConfusion hfail
        · exact ⟨g, h1, hfail⟩
      simp only [renderAll, hok, if_true]
      exact renderAll_snd_false renderOk pfx gs _ hrest

/-- Claim C7: when document conversion fails for some group of a valid
upload, the handler propagates the exception and the session's grouping data
(`city_groups` and `headers`) keeps its pre-upload value: the assignments of
lines 94-95 never run. -/
theorem c7_render_failure_atomic (st : AppState) (fname rawPfx : String)
    (dataset : List Row) (headers : List String) (renderOk : String → Bool)
    (savedName : String)
    (hvalid : strEndsWith fname ".xlsx" = true)
    (hfail : ∃ g ∈ upload_group dataset, renderOk g.1 = false) :
    (upload st (some fname) rawPfx dataset headers renderOk savedName).2
        = UploadResult.renderError ∧
    (upload st (some fname) rawPfx dataset headers renderOk savedName).1.session_city_groups
        = st.session_city_groups ∧
    (upload st (some fname) rawPfx dataset headers renderOk savedName).1.session_headers
        = st.session_headers := by
  have hsnd := renderAll_snd_false renderOk (pyStrip rawPfx) (upload_group dataset)
      (st.pdfFolder.getD []) hfail
  simp only [upload, hvalid, if_true, hsnd, if_false]
  exact ⟨rfl, rfl, rfl⟩

/-- Witness for C7 at a concrete input: a one-group upload whose conversion
always fails leaves the prior session intact. -/
theorem c7_render_failure_atomic_witness :
    strEndsWith "d.xlsx" ".xlsx" = true ∧
    ((upload (AppState.mk (some [("Z", [Row.mk (some "Z") 9])]) (some ["H"]) none none)
        (some "d.xlsx") " Q1 " [Row.mk (some "X") 0] ["CONTACTCITY"]
        (fun _ => false) "t.xlsx").2 = UploadResult.renderError ∧
     (upload (AppState.mk (some [("Z", [Row.mk (some "Z") 9])]) (some ["H"]) none none)
        (some "d.xlsx") " Q1 " [Row.mk (some "X") 0] ["CONTACTCITY"]
        (fun _ => false) "t.xlsx").1.session_city_groups
        = (AppState.mk (some [("Z", [Row.mk (some "Z") 9])]) (some ["H"]) none none).session_city_groups ∧
     (upload (AppState.mk (some [("Z", [Row.mk (some "Z") 9])]) (some ["H"]) none none)
        (some "d.xlsx") " Q1 " [Row.mk (some "X") 0] ["CONTACTCITY"]
        (fun _ => false) "t.xlsx").1.session_headers
        = (AppState.mk (some [("Z", [Row.mk (some "Z") 9])]) (some ["H"]) none none).session_headers) :=
  ⟨by decide,
   c7_render_failure_atomic (AppState.mk (some [("Z", [Row.mk (some "Z") 9])]) (some ["H"]) none none)
     "d.xlsx" " Q1 " [Row.mk (some "X") 0] ["CONTACTCITY"] (fun _ => false) "t.xlsx"
     (by decide) ⟨("X", [Row.mk (some "X") 0]), by decide, rfl⟩⟩

/-- Claim C8: an upload whose file part is missing or whose filename does not
end in `.xlsx` changes nothing — no folder entries, no session mutation — and
yields the flash-and-redirect to the landing page. -/
theorem c8_invalid_upload_no_effect (st : AppState) (file : Option String)
    (rawPfx : String) (dataset : List Row) (headers : List String)
    (renderOk : String → Bool) (savedName : String)
    (hbad : ∀ f, file = some f → strEndsWith f ".xlsx" = false) :
    upload st file rawPfx dataset headers renderOk savedName
      = (st, UploadResult.redirectIndex) := by
  cases file with
  | none => rfl
  | some fname =>
    have h := hbad fname rfl
    simp [upload, h]

/-- Witness for C8 at a concrete input: a `.csv` upload is rejected with no
state change. -/
theorem c8_invalid_upload_no_effect_witness :
    (∀ f, (some "data.csv" : Option String) = some f → strEndsWith f ".xlsx" = false) ∧
    upload (AppState.mk none none none none) (some "data.csv") "" [] []
        (fun _ => true) "s.xlsx"
      = (AppState.mk none none none none, UploadResult.redirectIndex) :=
  ⟨fun f hf => by injection hf with h; subst h; decide,
   c8_invalid_upload_no_effect (AppState.mk none none none none) (some "data.csv") "" [] []
     (fun _ => true) "s.xlsx" (fun f hf => by injection hf with h; subst h; decide)⟩

/-- Claim C9, counterexample: running cleanup against folders that exist but
are already empty is not free of observable effect — `shutil.rmtree(folder)`
removes the two (empty) folder directories themselves. -/
theorem c9_counterexample :
    cleanup_folders (AppState.mk none none (some []) (some []))
      ≠ AppState.mk none none (some []) (some []) := by decide

/-- Claim C9, amended: cleanup against already-absent areas is a no-op, and
cleanup is idempotent in effect — it always leaves both areas absent, so the
second of two consecutive invocations changes nothing; but cleanup of an
existing-yet-empty area removes the (empty) area directory itself, which is
an observable filesystem change. -/
theorem c9_amended_idempotent (st stAbsent : AppState)
    (hU : stAbsent.uploadFolder = none) (hP : stAbsent.pdfFolder = none) :
    cleanup_folders (cleanup_folders st) = cleanup_folders st ∧
    cleanup_folders stAbsent = stAbsent ∧
    (cleanup_folders st).uploadFolder = none ∧
    (cleanup_folders st).pdfFolder = none := by
  have hcf : ∀ x : Option (List String), cleanupFolder x = none := fun x => by
    cases x <;> rfl
  obtain ⟨a, b, u, p⟩ := st
  obtain ⟨a2, b2, u2, p2⟩ := stAbsent
  simp only at hU hP
  subst hU
  subst hP
  refine ⟨?_, rfl, ?_, ?_⟩ <;> simp [cleanup_folders, hcf]

/-- Witness for the amended C9 at concrete inputs. -/
theorem c9_amended_idempotent_witness :
    (AppState.mk none none none none).uploadFolder = none ∧
    (AppState.mk none none none none).pdfFolder = none ∧
    (cleanup_folders (cleanup_folders (AppState.mk none none (some ["x.pdf"]) (some [])))
        = cleanup_folders (AppState.mk none none (some ["x.pdf"]) (some [])) ∧
     cleanup_folders (AppState.mk none none none none) = AppState.mk none none none none ∧
     (cleanup_folders (AppState.mk none none (some ["x.pdf"]) (some []))).uploadFolder = none ∧
     (cleanup_folders (AppState.mk none none (some ["x.pdf"]) (some []))).pdfFolder = none) :=
  ⟨rfl, rfl,
   c9_amended_idempotent (AppState.mk none none (some ["x.pdf"]) (some []))
     (AppState.mk none none none none) rfl rfl⟩

/-- Claim C10, counterexample: upload with the trailing-whitespace form
prefix and a dataset whose city values are the space-shifted pair, then
request the single-document download for one of those cities with the same
raw prefix string.  The constructed filename coincides with the document
generated for the other city, so the handler sends a file rather than
reporting file-not-found. -/
theorem c10_counterexample :
    ("Q1 " : String) ≠ pyStrip "Q1 " ∧
    download_city_pdf
        ((upload (AppState.mk none none none none) (some "d.xlsx") "Q1 "
            [Row.mk (some " c") 0, Row.mk (some "c") 1] ["CONTACTCITY"]
            (fun _ => true) "t.xlsx").1.pdfFolder.getD [])
        "c" "Q1 "
      ≠ CityDownloadResult.notFoundRedirect ∧
    download_city_pdf
        ((upload (AppState.mk none none none none) (some "d.xlsx") "Q1 "
            [Row.mk (some " c") 0, Row.mk (some "c") 1] ["CONTACTCITY"]
            (fun _ => true) "t.xlsx").1.pdfFolder.getD [])
        "c" "Q1 "
      = CityDownloadResult.sendFile "Q1  c.pdf" := by decide

/-- Claim C10, amended: for the same city, the filename requested by the
download handler (raw prefix, used verbatim) equals the filename generated by
the upload handler (stripped prefix) exactly when the raw prefix equals its
own stripped form; a raw prefix with surrounding whitespace therefore yields
the file-not-found outcome unless its constructed filename coincides with the
document generated for some other city of the upload. -/
theorem c10_amended_prefix_mismatch (p city : String) (cities : List String) :
    (makeFilename p city = makeFilename (pyStrip p) city ↔ p = pyStrip p) ∧
    (p ≠ pyStrip p →
      (∀ c ∈ cities, c ≠ city → makeFilename (pyStrip p) c ≠ makeFilename p city) →
      download_city_pdf (cities.map (fun c => makeFilename (pyStrip p) c)) city p
        = CityDownloadResult.notFoundRedirect) := by
  have hiff : makeFilename p city = makeFilename (pyStrip p) city ↔ p = pyStrip p := by
    constructor
    · intro h
      by_cases hp : p = ""
      · subst hp
        decide
      · have hlen : p.length ≠ 0 := by
          intro h0
          exact hp (String.ext (List.length_eq_zero.mp h0))
        by_cases hs : pyStrip p = ""
        · exfalso
          rw [hs] at h
          have h1 : p ++ " " ++ city ++ ".pdf" = city ++ ".pdf" := by
            simpa [makeFilename, hp] using h
          have h2 := congrArg String.length h1
          simp only [String.length_append] at h2
          omega
        · have h1 : p ++ " " ++ city ++ ".pdf" = pyStrip p ++ " " ++ city ++ ".pdf" := by
            simpa [makeFilename, hp, hs] using h
          have h2 := congrArg String.data h1
          simp only [String.data_append, List.append_assoc] at h2
          exact String.ext (List.append_cancel_right h2)
    · intro h
      rw [← h]
  refine ⟨hiff, fun hne hother => ?_⟩
  have hnot : makeFilename p city ∉ cities.map (fun c => makeFilename (pyStrip p) c) := by
    intro hmem
    obtain ⟨c, hc, hceq⟩ := List.mem_map.mp hmem
    by_cases hcc : c = city
    · subst hcc
      exact hne (hiff.mp hceq.symm)
    · exact hother c hc hcc hceq
  simp [download_city_pdf, hnot]

/-- Witness for the amended C10 at a concrete input: a leading-whitespace
prefix yields file-not-found. -/
theorem c10_amended_prefix_mismatch_witness :
    (" Q1" : String) ≠ pyStrip " Q1" ∧
    download_city_pdf (["Denver"].map (fun c => makeFilename (pyStrip " Q1") c)) "Denver" " Q1"
      = CityDownloadResult.notFoundRedirect :=
  ⟨by decide,
   (c10_amended_prefix_mismatch " Q1" "Denver" ["Denver"]).2 (by decide) (by decide)⟩
